import Mathlib

/-!
Shallow embedding of the FNNDSC/outwright repository
(src/outlook_authentication.py and src/outlook_email_sender.py).

The Python code drives a browser through the Playwright capability.  We
embed it as pure Lean functions over explicit environments describing the
outcome of each browser-automation step (success, timeout, other error),
and over an explicit filesystem state for the dispatcher.  Each function
mirrors the control flow of the corresponding Python function; traces
record the UI actions the code performs, so that temporal claims
("fills the password field", "waits for the mailbox landmark") become
statements about trace membership and shape.

Modelling conventions:
* a Python exception raised by a browser step is an `Except.error` carrying
  the trace of actions attempted so far; a `try/except` boundary is a
  `match` on that `Except`;
* Python string operations are re-defined by structural recursion over
  the character list (`pyStrip`, `pySplit`, `pyReadlines`) so that they
  both match Python semantics and evaluate on concrete inputs;
* file contents use `\n` newlines (Python text mode).
-/

/-- Outcome of one browser-automation step: it completed, it raised a
Playwright `TimeoutError`, or it raised some other exception. -/
inductive StepOutcome
  | ok
  | timeoutErr
  | otherErr
deriving DecidableEq, Fintype, Repr

/-- Environment for `authenticate_outlook`: the outcome of each browser
step the function performs, in source order
(src/outlook_authentication.py lines 61-88). -/
structure AuthEnv where
  newPage : StepOutcome
  goto : StepOutcome
  fillEmail : StepOutcome
  clickSubmitEmail : StepOutcome
  waitPassword : StepOutcome
  fillPassword : StepOutcome
  clickSubmitPassword : StepOutcome
  waitStaySignedIn : StepOutcome
  clickStaySignedIn : StepOutcome
  waitNewMail : StepOutcome
deriving DecidableEq, Repr

/-- The observable actions `authenticate_outlook` performs, in source
order.  `logManual` is the log line of the `config.username` branch
(line 71). -/
inductive AuthAction
  | newPage
  | goto
  | fillEmail
  | clickSubmitEmail
  | logManual
  | waitPassword
  | fillPassword
  | clickSubmitPassword
  | waitStaySignedIn
  | clickStaySignedIn
  | waitNewMail
deriving DecidableEq, Fintype, Repr

/-- The `OutlookConfig` dataclass (src/outlook_authentication.py lines 31-36):
`email`, `password`, `username` are required fields, `outlook_url` has a
default. -/
structure OutlookConfig where
  email : String
  password : String
  username : String
  outlook_url : String := "https://outlook.office.com"
deriving DecidableEq, Repr

/-- Attempt one browser step: the action is recorded in the trace whether
or not it succeeds; a non-`ok` outcome raises (propagates as
`Except.error`, carrying the trace). -/
def try1 (a : AuthAction) (o : StepOutcome) (tr : List AuthAction) :
    Except (List AuthAction) (List AuthAction) :=
  match o with
  | .ok => .ok (tr ++ [a])
  | _ => .error (tr ++ [a])

/-- Body of the `try:` block of `authenticate_outlook`
(src/outlook_authentication.py lines 60-90).  Python's
`if config.username:` tests string truthiness, i.e. `username ≠ ""`; the
inner `try/except PlaywrightTimeoutError` (lines 80-85) encloses both the
wait for the "Stay signed in?" button and the click on it, so a
`TimeoutError` from either is swallowed and the sequence continues, while
any other exception (`otherErr`) propagates to the outer handler. -/
def authSequence (env : AuthEnv) (config : OutlookConfig) :
    Except (List AuthAction) (List AuthAction) := do
  let tr ← try1 .newPage env.newPage []
  let tr ← try1 .goto env.goto tr
  let tr ← try1 .fillEmail env.fillEmail tr
  let tr ← try1 .clickSubmitEmail env.clickSubmitEmail tr
  let tr ←
    if config.username = "" then do
      let tr ← try1 .waitPassword env.waitPassword tr
      let tr ← try1 .fillPassword env.fillPassword tr
      let tr ← try1 .clickSubmitPassword env.clickSubmitPassword tr
      match env.waitStaySignedIn with
      | .ok =>
        match env.clickStaySignedIn with
        | .ok => pure (tr ++ [.waitStaySignedIn, .clickStaySignedIn])
        | .timeoutErr => pure (tr ++ [.waitStaySignedIn, .clickStaySignedIn])
        | .otherErr => .error (tr ++ [.waitStaySignedIn, .clickStaySignedIn])
      | .timeoutErr => pure (tr ++ [.waitStaySignedIn])
      | .otherErr => .error (tr ++ [.waitStaySignedIn])
    else
      pure (tr ++ [.logManual])
  try1 .waitNewMail env.waitNewMail tr

/-- The function `authenticate_outlook` (src/outlook_authentication.py lines 59-93):
the whole sequence runs inside `try: ... except Exception: return False`,
so every raise is converted to the boolean `false`; the trace of actions
attempted is returned alongside. -/
def authenticate_outlook (env : AuthEnv) (config : OutlookConfig) :
    Bool × List AuthAction :=
  match authSequence env config with
  | .ok tr => (true, tr)
  | .error tr => (false, tr)

/-- An `AuthEnv` in which every step succeeds. -/
def allOkAuthEnv : AuthEnv :=
  ⟨.ok, .ok, .ok, .ok, .ok, .ok, .ok, .ok, .ok, .ok⟩

/-- A sample configuration with empty `username` (external / password
flow). -/
def extConfig : OutlookConfig :=
  { email := "name@example.com", password := "password", username := "" }

/-- A sample configuration with non-empty `username` (internal / manual
flow). -/
def intConfig : OutlookConfig :=
  { email := "name@example.com", password := "password", username := "chris" }

example :
    authenticate_outlook allOkAuthEnv extConfig =
      (true, [.newPage, .goto, .fillEmail, .clickSubmitEmail, .waitPassword,
              .fillPassword, .clickSubmitPassword, .waitStaySignedIn,
              .clickStaySignedIn, .waitNewMail]) := by decide

example :
    authenticate_outlook allOkAuthEnv intConfig =
      (true, [.newPage, .goto, .fillEmail, .clickSubmitEmail, .logManual,
              .waitNewMail]) := by decide

example :
    (authenticate_outlook
      ⟨.ok, .ok, .ok, .ok, .ok, .ok, .ok, .ok, .timeoutErr, .ok⟩
      extConfig).1 = true := by decide

/-! ## Dispatcher embedding (src/outlook_email_sender.py) -/

/-- The `EmailDetails` dataclass (src/outlook_email_sender.py lines 26-30). -/
structure EmailDetails where
  recipient : String
  subject : String
  body_file : String
deriving DecidableEq, Repr

/-- The observable UI actions of `send_email`, in source order:
`typeComma`/`pressSpace` are `keyboard.type(",")` / `keyboard.press("Space")`,
`typeBody` is `keyboard.type(body)`, `pressCtrlEnter` is
`keyboard.press("Control+Enter")`, `waitSentConfirm` is the bounded wait for
`#EmptyState_MainMessage`. -/
inductive UIAction
  | clickNewMail
  | waitTo
  | fillTo (s : String)
  | typeComma
  | pressSpace
  | fillSubject (s : String)
  | pressTab
  | typeBody (s : String)
  | pressCtrlEnter
  | waitSentConfirm
deriving DecidableEq, Repr

/-- Python `str.strip()` with no argument: remove leading and trailing
whitespace.  Defined by structural recursion over the character list so
that concrete instances evaluate. -/
def pyStrip (s : String) : String :=
  ⟨((s.data.dropWhile Char.isWhitespace).reverse.dropWhile Char.isWhitespace).reverse⟩

/-- Python `str.split(sep)` for a one-character separator: the pieces
between occurrences of `sep`; an empty string yields `[""]`, adjacent
separators yield empty pieces. -/
def splitCharAux (sep : Char) : List Char → List (List Char)
  | [] => [[]]
  | c :: rest =>
    let r := splitCharAux sep rest
    if c = sep then [] :: r
    else
      match r with
      | h :: t => (c :: h) :: t
      | [] => [[c]]

/-- Python `str.split(sep)` for a one-character separator, on `String`. -/
def pySplit (s : String) (sep : Char) : List String :=
  (splitCharAux sep s.data).map (fun l => ⟨l⟩)

/-- Helper for `pyReadlines`: accumulate characters of the current line
(in reverse) and emit a line at each newline, keeping the newline; an
unterminated final line is emitted without one, and an empty tail emits
nothing. -/
def readlinesAux : List Char → List Char → List (List Char)
  | acc, [] => if acc.isEmpty then [] else [acc.reverse]
  | acc, c :: rest =>
    if c = '\n' then (acc.reverse ++ ['\n']) :: readlinesAux [] rest
    else readlinesAux (c :: acc) rest

/-- Python `file.readlines()` on the file's content: split after each
newline, keeping the newline on every line but an unterminated last one;
an empty file yields no lines. -/
def pyReadlines (s : String) : List String :=
  (readlinesAux [] s.data).map (fun l => ⟨l⟩)

/-- Filesystem state seen by the dispatcher: the trigger file's content
(`none` when the file does not exist) and the other files on disk as an
association list from path to content. -/
structure FS where
  trigger : Option String
  files : List (String × String)
deriving DecidableEq, Repr

/-- Read a file by path (`none` models `open` raising
`FileNotFoundError`). -/
def lookupFile (files : List (String × String)) (path : String) : Option String :=
  (files.find? (fun p => p.1 = path)).map (fun p => p.2)

/-- The recipient loop of `send_email` (src/outlook_email_sender.py lines
63-68): fill the "To" field with each comma-separated entry stripped, and
after every entry but the last type a comma and press Space. -/
def recipientActsAux : List String → List UIAction
  | [] => []
  | [r] => [.fillTo (pyStrip r)]
  | r :: rest => .fillTo (pyStrip r) :: .typeComma :: .pressSpace :: recipientActsAux rest

/-- The function `send_email` (src/outlook_email_sender.py lines 54-88).  `confirmOk`
is whether the bounded (30s) wait for the sent-confirmation landmark
succeeds; the clicks, fills and keystrokes themselves run under the
context's effectively unbounded default timeout and are modelled as
succeeding.  Opening a missing body file raises, which the function's
`except` converts to `False`; the whole body runs inside
`try: ... except Exception: return False`. -/
def send_email (fs : FS) (confirmOk : Bool) (d : EmailDetails) :
    Bool × List UIAction :=
  let pre : List UIAction :=
    UIAction.clickNewMail :: UIAction.waitTo ::
      (recipientActsAux (pySplit d.recipient ',') ++
        [UIAction.fillSubject (pyStrip d.subject), UIAction.pressTab])
  match lookupFile fs.files d.body_file with
  | none => (false, pre)
  | some content =>
    (confirmOk,
      pre ++ [UIAction.typeBody (pyStrip content), UIAction.pressCtrlEnter,
              UIAction.waitSentConfirm])

/-- One iteration of the `while True:` loop of `listen_for_email_requests`
(src/outlook_email_sender.py lines 93-117), up to the trailing sleep.
Returns the new filesystem state, the UI actions performed, and whether
the iteration's `except Exception` boundary caught an exception (the
`IndexError` from `lines[i]` on a trigger file with fewer than three
lines).  The trigger file is removed exactly when `send_email` returned
`True`. -/
def pollCycle (fs : FS) (confirmOk : Bool) : FS × List UIAction × Bool :=
  match fs.trigger with
  | none => (fs, [], false)
  | some content =>
    match pyReadlines content with
    | r :: s :: b :: _ =>
      let d : EmailDetails :=
        { recipient := pyStrip r, subject := pyStrip s, body_file := pyStrip b }
      let res := send_email fs confirmOk d
      if res.1 then ({ fs with trigger := none }, res.2, false)
      else (fs, res.2, false)
    | _ => (fs, [], true)

/-- Observable events of the dispatcher loop: UI actions, an exception
caught at the loop's error boundary, and the fixed sleep (5 seconds)
ending every iteration. -/
inductive Event
  | ui (a : UIAction)
  | caughtErr
  | sleep (n : Nat)
deriving DecidableEq, Repr

/-- The loop of `listen_for_email_requests` run for finitely many iterations, one
`confirmOk` oracle value per iteration (the Python loop is infinite; the
list of oracle values is the fuel). -/
def listenLoop : FS → List Bool → FS × List Event
  | fs, [] => (fs, [])
  | fs, ok :: rest =>
    let c := pollCycle fs ok
    let next := listenLoop c.1 rest
    (next.1,
      c.2.1.map Event.ui ++ (if c.2.2 then [Event.caughtErr] else []) ++
        Event.sleep 5 :: next.2)

example :
    pollCycle { trigger := some "a@x\nsub\n/b", files := [("/b", "hi")] } true =
      ({ trigger := none, files := [("/b", "hi")] },
       [.clickNewMail, .waitTo, .fillTo "a@x", .fillSubject "sub", .pressTab,
        .typeBody "hi", .pressCtrlEnter, .waitSentConfirm], false) := by
  decide

example :
    pollCycle { trigger := some "a@x\nsub", files := [] } true =
      ({ trigger := some "a@x\nsub", files := [] }, [], true) := by decide

/-- Claim-side definition, following the spec's words: the body-file
contents "with only trailing whitespace trimmed". -/
def stripTrailing (s : String) : String :=
  ⟨(s.data.reverse.dropWhile Char.isWhitespace).reverse⟩

example : stripTrailing " Hello" = " Hello" := by decide
example : pyStrip " Hello " = "Hello" := by decide
example : pySplit "a, b,c" ',' = ["a", " b", "c"] := by decide
example : pyReadlines "a\nb" = ["a\n", "b"] := by decide
example : pyReadlines "a\nb\n" = ["a\n", "b\n"] := by decide
example : pyReadlines "" = [] := by decide

/-! ## Session setup and entry points -/

/-- The three browser-session resources
(src/outlook_authentication.py lines 43-45): the Playwright driver, the
browser, and the context. -/
inductive Resource
  | playwright
  | browser
  | context
deriving DecidableEq, Repr

/-- Environment for `setup_browser`: whether each of
`async_playwright().start()`, `chromium.launch(...)` and
`browser.new_context(...)` completes without raising. -/
structure SetupEnv where
  startOk : Bool
  launchOk : Bool
  newContextOk : Bool
deriving DecidableEq, Repr

/-- The function `setup_browser` (src/outlook_authentication.py lines 39-56): creates
the three resources in order inside a `try:`; any exception is caught and
`(None, None, None)` is returned — the handles to resources already
created before the failing step are dropped.  Returns the three handles
(`Option Unit` models a possibly-`None` Python handle) together with the
list of resources actually created.  The `set_default_timeout(2147483647)`
call on the successfully created context has no resource effect and is
not modelled. -/
def setup_browser (env : SetupEnv) :
    (Option Unit × Option Unit × Option Unit) × List Resource :=
  if env.startOk then
    if env.launchOk then
      if env.newContextOk then
        ((some (), some (), some ()),
         [Resource.playwright, Resource.browser, Resource.context])
      else ((none, none, none), [Resource.playwright, Resource.browser])
    else ((none, none, none), [Resource.playwright])
  else ((none, none, none), [])

/-- The coroutine `authenticate` (src/outlook_authentication.py lines 111-130), the
authenticator entry point after argument parsing: run `setup_browser`,
then in a `try:` return early if the context is missing, otherwise run
`authenticate_outlook`; the `finally:` closes context, browser and
driver, but only when all three handles are non-`None`.  Returns the
resources created and the close actions performed, in order. -/
def authenticate_entry (senv : SetupEnv) (aenv : AuthEnv)
    (config : OutlookConfig) : List Resource × List Resource :=
  let s := setup_browser senv
  let pw := s.1.1
  let br := s.1.2.1
  let ctx := s.1.2.2
  let _authed :=
    if ctx.isSome then (authenticate_outlook aenv config).1 else false
  let closed :=
    if ctx.isSome && br.isSome && pw.isSome then
      [Resource.context, Resource.browser, Resource.playwright]
    else []
  (s.2, closed)

/-- Construction of the `OutlookConfig` dataclass from keyword arguments:
a dataclass `__init__` raises `TypeError` when a field without a default
is not supplied.  `email`, `password` and `username` have no default;
`outlook_url` defaults (src/outlook_authentication.py lines 31-36). -/
def dataclassInit (email password username outlook_url : Option String) :
    Except String OutlookConfig :=
  match email, password, username with
  | some e, some p, some u =>
    .ok { email := e, password := p, username := u,
          outlook_url := outlook_url.getD "https://outlook.office.com" }
  | _, _, _ => .error "missing required positional argument"

/-- Observable events of the sender entry point `async_main`. -/
inductive MainEvent
  | setupBrowser
  | logSetupFailed
  | authAttempt (ok : Bool)
  | listenStart
  | close (r : Resource)
deriving DecidableEq, Repr

/-- The coroutine `async_main` (src/outlook_email_sender.py lines 122-155), the sender
entry point after argument parsing: construct the configuration from
`--email` and `--password` only (no `username` keyword), then set up the
browser, authenticate, and poll.  A `TypeError` from the dataclass
constructor propagates out of `async_main` (the construction is before
the `try:`), so the returned events are empty and the error is reported;
otherwise events record setup, the authentication attempt, the start of
the listen loop (run here on finite fuel, since the Python loop is
infinite) and the `finally:` closes. -/
def async_mainModel (email password : String) (senv : SetupEnv)
    (aenv : AuthEnv) (fs : FS) (polls : List Bool) :
    List MainEvent × Option String :=
  match dataclassInit (some email) (some password) none none with
  | .error e => ([], some e)
  | .ok config =>
    let s := setup_browser senv
    let pw := s.1.1
    let br := s.1.2.1
    let ctx := s.1.2.2
    if pw.isNone || br.isNone || ctx.isNone then
      ([MainEvent.setupBrowser, MainEvent.logSetupFailed], none)
    else
      let authed := (authenticate_outlook aenv config).1
      let body :=
        if authed then
          let _listened := listenLoop fs polls
          [MainEvent.setupBrowser, MainEvent.authAttempt true,
           MainEvent.listenStart]
        else [MainEvent.setupBrowser, MainEvent.authAttempt false]
      (body ++ [MainEvent.close Resource.context,
                MainEvent.close Resource.browser,
                MainEvent.close Resource.playwright], none)



/-! ## Helper lemmas -/

/-- Discriminator for the "fill recipient field" action. -/
def UIAction.isFillTo : UIAction → Bool
  | .fillTo _ => true
  | _ => false

/-- Claim-side shape of the recipient fills, following the spec's words:
the per-address fill blocks joined by a comma keystroke plus a space
keystroke between consecutive blocks (and after none other). -/
def sepJoin : List (List UIAction) → List UIAction
  | [] => []
  | [x] => x
  | x :: xs => x ++ UIAction.typeComma :: UIAction.pressSpace :: sepJoin xs

theorem recipientActsAux_eq_sepJoin (rs : List String) :
    recipientActsAux rs =
      sepJoin (rs.map (fun r => [UIAction.fillTo (pyStrip r)])) := by
  induction rs with
  | nil => rfl
  | cons r rest ih =>
    cases rest with
    | nil => rfl
    | cons r' rest' =>
      simp only [recipientActsAux, List.map, sepJoin, ih]
      rfl

theorem recipientActsAux_count (rs : List String) :
    (recipientActsAux rs).countP UIAction.isFillTo = rs.length := by
  induction rs with
  | nil => rfl
  | cons r rest ih =>
    cases rest with
    | nil => rfl
    | cons r' rest' =>
      simp only [recipientActsAux] at ih ⊢
      rw [List.countP_cons, List.countP_cons, List.countP_cons, ih]
      simp [UIAction.isFillTo]

theorem recipientActsAux_no_typeBody (rs : List String) (s : String) :
    UIAction.typeBody s ∉ recipientActsAux rs := by
  induction rs with
  | nil => simp [recipientActsAux]
  | cons r rest ih =>
    cases rest with
    | nil => simp [recipientActsAux]
    | cons r' rest' =>
      intro hmem
      simp only [recipientActsAux, List.mem_cons] at hmem
      rcases hmem with h | h | h | h
      · simp at h
      · simp at h
      · simp at h
      · exact ih h

/-! ## Claim theorems: dispatcher -/

/-- Well-formed trigger fixture: three lines, body file present. -/
def fsGood : FS := { trigger := some "a@x\nsub\n/b", files := [("/b", "hi")] }

/-- Malformed trigger fixture: a single line. -/
def fsShort : FS := { trigger := some "onlyone", files := [] }

/-- Empty-filesystem fixture: no trigger file. -/
def fsIdle : FS := { trigger := none, files := [] }

/-- C1: for a well-formed trigger-file request (three lines, body-file
path readable) the dispatcher deletes the trigger file iff the send
returned success; on failure the filesystem state — the trigger file's
bytes included — is exactly unchanged, so the file is still there for the
next poll cycle. -/
theorem trigger_deleted_iff_send_success (fs : FS) (c r s b body : String)
    (rest : List String) (ok : Bool)
    (h1 : fs.trigger = some c)
    (h2 : pyReadlines c = r :: s :: b :: rest)
    (h3 : lookupFile fs.files (pyStrip b) = some body) :
    ((pollCycle fs ok).1.trigger = none ↔ ok = true) ∧
    (ok = false → (pollCycle fs ok).1 = fs) := by
  simp only [pollCycle, h1, h2, send_email, h3]
  cases ok <;> simp [h1]

theorem trigger_deleted_iff_send_success_witness :
    ((pollCycle fsGood false).1.trigger = none ↔ false = true) ∧
    (false = false → (pollCycle fsGood false).1 = fsGood) :=
  trigger_deleted_iff_send_success fsGood "a@x\nsub\n/b" "a@x\n" "sub\n" "/b"
    "hi" [] false (by decide) (by decide) (by decide)

/-- C3: a trigger file with fewer than three lines makes the poll cycle
fail during parsing: the file is not deleted, no send (hence no UI
action) is attempted, the raised `IndexError` is caught at the loop's
error boundary, and the loop goes on to sleep and poll again. -/
theorem malformed_trigger_kept (fs : FS) (c : String) (ok : Bool)
    (h1 : fs.trigger = some c) (h2 : (pyReadlines c).length < 3) :
    pollCycle fs ok = (fs, [], true) ∧
    listenLoop fs [ok] = (fs, [Event.caughtErr, Event.sleep 5]) := by
  have hp : pollCycle fs ok = (fs, [], true) := by
    rcases hl : pyReadlines c with _ | ⟨x, _ | ⟨y, _ | ⟨z, t⟩⟩⟩
    · simp [pollCycle, h1, hl]
    · simp [pollCycle, h1, hl]
    · simp [pollCycle, h1, hl]
    · rw [hl] at h2; simp only [List.length_cons] at h2; omega
  exact ⟨hp, by simp [listenLoop, hp]⟩

theorem malformed_trigger_kept_witness :
    (pollCycle fsShort true = (fsShort, [], true) ∧
     listenLoop fsShort [true] = (fsShort, [Event.caughtErr, Event.sleep 5])) :=
  malformed_trigger_kept fsShort "onlyone" true (by decide) (by decide)

/-- C9: when the trigger file does not exist at poll time — in particular
on any cycle after a processed trigger file was deleted — the poll cycle
takes no send action, catches no exception, and leaves the state
unchanged; over two cycles the loop just sleeps the fixed 5-second
interval each time, so a second pass over an already-processed trigger
file performs no send. -/
theorem absent_trigger_poll_noop (fs : FS) (ok ok2 : Bool)
    (h : fs.trigger = none) :
    pollCycle fs ok = (fs, [], false) ∧
    listenLoop fs [ok, ok2] = (fs, [Event.sleep 5, Event.sleep 5]) := by
  have h1 : pollCycle fs ok = (fs, [], false) := by simp [pollCycle, h]
  have h2 : pollCycle fs ok2 = (fs, [], false) := by simp [pollCycle, h]
  exact ⟨h1, by simp [listenLoop, h1, h2]⟩

theorem absent_trigger_poll_noop_witness :
    (pollCycle fsIdle true = (fsIdle, [], false) ∧
     listenLoop fsIdle [true, false] = (fsIdle, [Event.sleep 5, Event.sleep 5])) :=
  absent_trigger_poll_noop fsIdle true false (by decide)

/-- C4: within a send, the "To" field is filled exactly once per
comma-separated entry of the recipient line (in order, each stripped of
surrounding whitespace), and the fill blocks are joined by a
comma-keystroke-plus-space pair between consecutive entries only: the
trace is `clickNewMail`, the wait for the "To" field, the joined fill
blocks, then a tail containing no further recipient fill, comma or space
keystroke. -/
theorem compose_fills_each_recipient (fs : FS) (ok : Bool)
    (d : EmailDetails) :
    ((send_email fs ok d).2.countP UIAction.isFillTo =
      (pySplit d.recipient ',').length) ∧
    ∃ rest,
      (send_email fs ok d).2 =
        UIAction.clickNewMail :: UIAction.waitTo ::
          (sepJoin ((pySplit d.recipient ',').map
            (fun r => [UIAction.fillTo (pyStrip r)])) ++ rest) ∧
      rest.countP UIAction.isFillTo = 0 ∧
      UIAction.typeComma ∉ rest ∧ UIAction.pressSpace ∉ rest := by
  have hsep := recipientActsAux_eq_sepJoin (pySplit d.recipient ',')
  have hcnt := recipientActsAux_count (pySplit d.recipient ',')
  unfold send_email
  cases hb : lookupFile fs.files d.body_file with
  | none =>
    refine ⟨?_, [UIAction.fillSubject (pyStrip d.subject), UIAction.pressTab],
      ?_, ?_, ?_, ?_⟩ <;>
      simp [List.countP_cons, List.countP_append, hcnt, hsep.symm,
        UIAction.isFillTo]
  | some content =>
    refine ⟨?_, [UIAction.fillSubject (pyStrip d.subject), UIAction.pressTab,
      UIAction.typeBody (pyStrip content), UIAction.pressCtrlEnter,
      UIAction.waitSentConfirm], ?_, ?_, ?_, ?_⟩ <;>
      simp [List.countP_cons, List.countP_append, hcnt, hsep.symm,
        UIAction.isFillTo]

/-- Fixture for C6: the body file's content has leading whitespace. -/
def fsLead : FS := { trigger := some "a@x\nsub\n/b", files := [("/b", " Hello")] }

/-- C6 counterexample: for the well-formed request whose body file
contains `" Hello"` (leading space, no trailing whitespace), the claim
predicts the typed body `" Hello"` (contents with only trailing
whitespace trimmed, otherwise verbatim), but the dispatcher's send types
`"Hello"` — `file.read().strip()` removes leading whitespace too. -/
theorem typed_body_counterexample :
    UIAction.typeBody "Hello" ∈ (pollCycle fsLead true).2.1 ∧
    UIAction.typeBody (stripTrailing " Hello") ∉ (pollCycle fsLead true).2.1 := by
  decide

/-- C6 amended: for every send of a well-formed request, the text typed
into the message body equals the full contents of the body file with
leading and trailing whitespace trimmed (Python `str.strip()`), otherwise
verbatim — and it is the only text typed into the body. -/
theorem typed_body_is_stripped (fs : FS) (ok : Bool) (d : EmailDetails)
    (content : String)
    (h : lookupFile fs.files d.body_file = some content) :
    UIAction.typeBody (pyStrip content) ∈ (send_email fs ok d).2 ∧
    ∀ s, UIAction.typeBody s ∈ (send_email fs ok d).2 → s = pyStrip content := by
  have hno := recipientActsAux_no_typeBody (pySplit d.recipient ',')
  constructor
  · simp [send_email, h]
  · intro s hs
    have hno' := hno s
    simp only [send_email, h] at hs
    simp [hno'] at hs
    exact hs

theorem typed_body_is_stripped_witness :
    UIAction.typeBody (pyStrip " Hello") ∈
      (send_email fsLead true ⟨"a@x", "sub", "/b"⟩).2 ∧
    ∀ s, UIAction.typeBody s ∈ (send_email fsLead true ⟨"a@x", "sub", "/b"⟩).2 →
      s = pyStrip " Hello" :=
  typed_body_is_stripped fsLead true ⟨"a@x", "sub", "/b"⟩ " Hello" (by decide)

/-! ## Claim theorems: entry points and resources -/

/-- C2: the sender entry point constructs `OutlookConfig` from `email`
and `password` only, while `username` is a required dataclass field with
no default, so every invocation fails at configuration construction with
a missing-argument error: no event is emitted — no browser session is
created and no polling begins. -/
theorem sender_entry_missing_username (email password : String)
    (senv : SetupEnv) (aenv : AuthEnv) (fs : FS) (polls : List Bool) :
    async_mainModel email password senv aenv fs polls =
      ([], some "missing required positional argument") := by
  simp [async_mainModel, dataclassInit]

/-- An `AuthEnv` whose authentication fails partway (the password field
never appears within its bounded wait). -/
def failPwAuthEnv : AuthEnv :=
  ⟨.ok, .ok, .ok, .ok, .timeoutErr, .ok, .ok, .ok, .ok, .ok⟩

/-- C10 counterexample: when session setup fails partway — the Playwright
driver started and the browser launched, but creating the context raised —
the already-created browser (and driver) are released zero times, not
exactly once: `setup_browser`'s handler returns `(None, None, None)` and
the `finally:` closes nothing. -/
theorem resource_release_counterexample :
    Resource.browser ∈
      (authenticate_entry ⟨true, true, false⟩ allOkAuthEnv extConfig).1 ∧
    (authenticate_entry ⟨true, true, false⟩ allOkAuthEnv extConfig).2.count
      Resource.browser = 0 := by
  decide

/-- C10 amended: on shutdown after a fully successful session setup, the
context, browser and automation driver are each released exactly once,
even if authentication failed partway; resources created during a setup
attempt that itself failed partway are dropped without being released. -/
theorem resources_released_once_after_setup (senv : SetupEnv)
    (aenv : AuthEnv) (config : OutlookConfig)
    (h1 : senv.startOk = true) (h2 : senv.launchOk = true)
    (h3 : senv.newContextOk = true) :
    (setup_browser senv).1 = (some (), some (), some ()) ∧
    ∀ r : Resource,
      (authenticate_entry senv aenv config).1.count r = 1 ∧
      (authenticate_entry senv aenv config).2.count r = 1 := by
  obtain ⟨s1, s2, s3⟩ := senv
  simp only at h1 h2 h3
  subst h1 h2 h3
  refine ⟨by simp [setup_browser], ?_⟩
  intro r
  cases r <;> simp [authenticate_entry, setup_browser, List.count_cons]

theorem resources_released_once_after_setup_witness :
    (authenticate_entry ⟨true, true, true⟩ failPwAuthEnv extConfig).1.count
        Resource.browser = 1 ∧
    (authenticate_entry ⟨true, true, true⟩ failPwAuthEnv extConfig).2.count
        Resource.browser = 1 :=
  (resources_released_once_after_setup ⟨true, true, true⟩ failPwAuthEnv
    extConfig (by decide) (by decide) (by decide)).2 Resource.browser

/-! ## Claim theorems: authentication -/

/-- C5: whenever `username` is non-empty, the authentication sequence
never fills the password field, never submits it, and never waits for it;
and if the preceding email-submission steps succeed it logs the
manual-handoff message and proceeds directly to the mailbox-landmark
wait. -/
theorem nonempty_username_skips_password (env : AuthEnv)
    (config : OutlookConfig) (hu : config.username ≠ "") :
    AuthAction.fillPassword ∉ (authenticate_outlook env config).2 ∧
    AuthAction.clickSubmitPassword ∉ (authenticate_outlook env config).2 ∧
    AuthAction.waitPassword ∉ (authenticate_outlook env config).2 ∧
    ((env.newPage = .ok ∧ env.goto = .ok ∧ env.fillEmail = .ok ∧
      env.clickSubmitEmail = .ok) →
      AuthAction.logManual ∈ (authenticate_outlook env config).2 ∧
      AuthAction.waitNewMail ∈ (authenticate_outlook env config).2) := by
  obtain ⟨a, b, c, d, e, f, g, h, i, j⟩ := env
  simp only [authenticate_outlook, authSequence, try1, if_neg hu]
  revert a b c d j
  decide

theorem nonempty_username_skips_password_witness :
    (AuthAction.fillPassword ∉ (authenticate_outlook allOkAuthEnv intConfig).2 ∧
     AuthAction.clickSubmitPassword ∉ (authenticate_outlook allOkAuthEnv intConfig).2 ∧
     AuthAction.waitPassword ∉ (authenticate_outlook allOkAuthEnv intConfig).2 ∧
     ((allOkAuthEnv.newPage = .ok ∧ allOkAuthEnv.goto = .ok ∧
       allOkAuthEnv.fillEmail = .ok ∧ allOkAuthEnv.clickSubmitEmail = .ok) →
       AuthAction.logManual ∈ (authenticate_outlook allOkAuthEnv intConfig).2 ∧
       AuthAction.waitNewMail ∈ (authenticate_outlook allOkAuthEnv intConfig).2)) :=
  nonempty_username_skips_password allOkAuthEnv intConfig (by decide)

/-- C8: in the password flow, a timeout of the bounded wait for the
"Stay signed in?" prompt is not a failure: the prompt's button is never
clicked, the sequence still proceeds to the mailbox-landmark wait, and if
that landmark appears authentication returns success. -/
theorem staysignedin_timeout_not_failure (env : AuthEnv)
    (config : OutlookConfig) (hu : config.username = "")
    (h1 : env.newPage = .ok) (h2 : env.goto = .ok) (h3 : env.fillEmail = .ok)
    (h4 : env.clickSubmitEmail = .ok) (h5 : env.waitPassword = .ok)
    (h6 : env.fillPassword = .ok) (h7 : env.clickSubmitPassword = .ok)
    (h8 : env.waitStaySignedIn = .timeoutErr) :
    AuthAction.waitNewMail ∈ (authenticate_outlook env config).2 ∧
    AuthAction.clickStaySignedIn ∉ (authenticate_outlook env config).2 ∧
    (env.waitNewMail = .ok → (authenticate_outlook env config).1 = true) := by
  obtain ⟨a, b, c, d, e, f, g, h, i, j⟩ := env
  simp only at h1 h2 h3 h4 h5 h6 h7 h8 ⊢
  subst h1 h2 h3 h4 h5 h6 h7 h8
  simp only [authenticate_outlook, authSequence, try1, if_pos hu]
  revert i j
  decide

/-- An `AuthEnv` for the password flow in which the "Stay signed in?"
prompt never appears within its bounded wait but everything else
succeeds. -/
def noPromptAuthEnv : AuthEnv :=
  ⟨.ok, .ok, .ok, .ok, .ok, .ok, .ok, .timeoutErr, .ok, .ok⟩

theorem staysignedin_timeout_not_failure_witness :
    (AuthAction.waitNewMail ∈ (authenticate_outlook noPromptAuthEnv extConfig).2 ∧
     AuthAction.clickStaySignedIn ∉ (authenticate_outlook noPromptAuthEnv extConfig).2 ∧
     (noPromptAuthEnv.waitNewMail = .ok →
       (authenticate_outlook noPromptAuthEnv extConfig).1 = true)) :=
  staysignedin_timeout_not_failure noPromptAuthEnv extConfig (by decide)
    (by decide) (by decide) (by decide) (by decide) (by decide) (by decide)
    (by decide) (by decide)

set_option maxHeartbeats 4000000 in
set_option synthInstance.maxSize 20000 in
set_option synthInstance.maxHeartbeats 2000000 in
/-- C7: authentication always returns a bare boolean - every raising step
and every unmet wait inside the sequence is caught and converted to
`false` - and it returns `true` exactly when every step through the final
mailbox-landmark wait completed: the email steps, then (only in the
empty-`username` password flow) the password steps with the
"Stay signed in?" wait either timing out silently or succeeding with its
click at worst timing out (only a non-timeout exception from that prompt
is a failure), and finally the mailbox-landmark wait itself. -/
theorem auth_success_characterization (env : AuthEnv)
    (config : OutlookConfig) :
    (authenticate_outlook env config).1 = true ↔
      (env.newPage = .ok ∧ env.goto = .ok ∧ env.fillEmail = .ok ∧
       env.clickSubmitEmail = .ok ∧
       (config.username = "" →
         (env.waitPassword = .ok ∧ env.fillPassword = .ok ∧
          env.clickSubmitPassword = .ok ∧
          env.waitStaySignedIn ≠ .otherErr ∧
          (env.waitStaySignedIn = .ok → env.clickStaySignedIn ≠ .otherErr))) ∧
       env.waitNewMail = .ok) := by
  obtain ⟨a, b, c, d, e, f, g, h, i, j⟩ := env
  by_cases hu : config.username = ""
  · simp only [authenticate_outlook, authSequence, try1, if_pos hu]
    simp only [hu, eq_self_iff_true, true_implies]
    cases a with
    | timeoutErr => exact iff_of_false Bool.false_ne_true (by simp)
    | otherErr => exact iff_of_false Bool.false_ne_true (by simp)
    | ok =>
      cases b with
      | timeoutErr => exact iff_of_false Bool.false_ne_true (by simp)
      | otherErr => exact iff_of_false Bool.false_ne_true (by simp)
      | ok =>
        cases c with
        | timeoutErr => exact iff_of_false Bool.false_ne_true (by simp)
        | otherErr => exact iff_of_false Bool.false_ne_true (by simp)
        | ok =>
          cases d with
          | timeoutErr => exact iff_of_false Bool.false_ne_true (by simp)
          | otherErr => exact iff_of_false Bool.false_ne_true (by simp)
          | ok =>
            cases e with
            | timeoutErr => exact iff_of_false Bool.false_ne_true (by simp)
            | otherErr => exact iff_of_false Bool.false_ne_true (by simp)
            | ok =>
              cases f with
              | timeoutErr => exact iff_of_false Bool.false_ne_true (by simp)
              | otherErr => exact iff_of_false Bool.false_ne_true (by simp)
              | ok =>
                cases g with
                | timeoutErr => exact iff_of_false Bool.false_ne_true (by simp)
                | otherErr => exact iff_of_false Bool.false_ne_true (by simp)
                | ok =>
                  cases h with
                  | otherErr => exact iff_of_false Bool.false_ne_true (by simp)
                  | timeoutErr =>
                    cases j with
                    | timeoutErr => exact iff_of_false Bool.false_ne_true (by simp)
                    | otherErr => exact iff_of_false Bool.false_ne_true (by simp)
                    | ok => exact iff_of_true rfl (by simp)
                  | ok =>
                    cases i with
                    | otherErr => exact iff_of_false Bool.false_ne_true (by simp)
                    | timeoutErr =>
                      cases j with
                      | timeoutErr => exact iff_of_false Bool.false_ne_true (by simp)
                      | otherErr => exact iff_of_false Bool.false_ne_true (by simp)
                      | ok => exact iff_of_true rfl (by simp)
                    | ok =>
                      cases j with
                      | timeoutErr => exact iff_of_false Bool.false_ne_true (by simp)
                      | otherErr => exact iff_of_false Bool.false_ne_true (by simp)
                      | ok => exact iff_of_true rfl (by simp)
  · simp only [authenticate_outlook, authSequence, try1, if_neg hu]
    simp only [hu, false_implies]
    revert a b c d j
    decide
